import Mathlib

/-!
# Verification of the compute-server layer (`src/compute/servers.rs`)

A shallow embedding of the server query builder, the server entity and its
refresh/action operations, the status/creation waiters, and server creation.

Transport effects are modelled by a `Session` record of pure oracles; every
embedded operation additionally returns the ordered list of transport calls it
issued (`List Call`), so that "invokes exactly one refresh" or "`create_server`
is never invoked" are stateable properties.

Types that live outside the provided source file (`protocol`, `utils::Query`,
the generic `ResourceIterator`, the error type) are modelled from the spec and
are marked as such in their doc comments.
-/

namespace Servers

/-- Modelled from the spec: error kinds of §7 (`ResourceNotFound`,
`TooManyItems`, `OperationTimedOut`, `OperationFailed`, plus pass-through
transport errors); the error type itself (with `Error::new(kind, msg)`) is not
in the provided source. -/
inductive ErrorKind where
  | ResourceNotFound
  | TooManyItems
  | OperationTimedOut
  | OperationFailed
  | PassThrough (tag : String)
deriving DecidableEq, Repr

/-- Modelled from the spec: an error is a kind plus a human-readable message
naming the affected entity. -/
structure Err where
  kind : ErrorKind
  message : String
deriving DecidableEq, Repr

/-- The kind of the error of a fallible result, if it is an error. -/
def errKind {α : Type} : Except Err α → Option ErrorKind
  | .error e => some e.kind
  | .ok _ => none

/-- Modelled from the spec: server states of §4.2 — `Active`, `ShutOff`,
`Error` (terminal failure), plus an open set of provider-defined transient
states treated opaquely (`protocol::ServerStatus` is not in the provided
source). -/
inductive ServerStatus where
  | Active
  | ShutOff
  | Error
  | Transient (tag : String)
deriving DecidableEq, Repr

/-- Modelled from the spec: the wire rendering of a status, uppercase as in the
source's own messages ("to become ACTIVE", "status is ERROR"). -/
def ServerStatus.display : ServerStatus → String
  | .Active => "ACTIVE"
  | .ShutOff => "SHUTOFF"
  | .Error => "ERROR"
  | .Transient tag => tag

/-- Modelled from the spec: reboot kinds, rendered as in the spec's example
argument mapping `\x7b"type": "HARD"\x7d`. -/
inductive RebootType where
  | HARD
  | SOFT
deriving DecidableEq, Repr

/-- The wire rendering of a reboot kind. -/
def RebootType.display : RebootType → String
  | .HARD => "HARD"
  | .SOFT => "SOFT"

/-- Modelled from the spec: a full flavor as returned by the flavor lookup
(`session.get_flavor`), with the spec fields vCPU/RAM/disk/ephemeral/swap. -/
structure Flavor where
  name : String
  vcpus : Nat
  ram : Nat
  disk : Nat
  ephemeral : Nat
  swap : Nat
  extra_specs : List (String × String)
deriving DecidableEq, Repr

/-- Modelled from the spec: `protocol::ServerFlavor`, the resolved flavor
specs embedded in a `Server` (field names as used at `Server::new`). -/
structure ServerFlavor where
  ephemeral_size : Nat
  extra_specs : List (String × String)
  original_name : String
  ram_size : Nat
  root_size : Nat
  swap_size : Nat
  vcpu_count : Nat
deriving DecidableEq, Repr

/-- Modelled from the spec: the entity snapshot (`protocol::Server`): an
immutable identity plus mutable fields replaced wholesale on refresh (a
representative set of them; `flavorId` is the id under `inner.flavor.id`). -/
structure ProtoServer where
  id : String
  name : String
  status : ServerStatus
  flavorId : String
  imageId : Option String
  keyPairName : Option String
  powerState : Nat
  metadata : List (String × String)
deriving DecidableEq, Repr

/-- Modelled from the spec: an id/name summary item of a chunked listing
(`common::protocol::IdAndName`). -/
structure IdAndName where
  id : String
  name : String
deriving DecidableEq, Repr

/-- Modelled from the spec: `utils::Query`, an ordered mapping of parameter
name to rendered value; insertion order is preserved. -/
structure Query where
  params : List (String × String)
deriving DecidableEq, Repr

/-- Embeds `Query::new()`: the empty query. -/
def Query.new : Query := ⟨[]⟩

/-- Embeds `Query::push_str`: append a string-valued parameter. -/
def Query.push_str (q : Query) (key value : String) : Query :=
  ⟨q.params ++ [(key, value)]⟩

/-- Embeds `Query::push`: append a numeric parameter, rendered to its string form. -/
def Query.push (q : Query) (key : String) (value : Nat) : Query :=
  ⟨q.params ++ [(key, toString value)]⟩

/-- Modelled from the spec: `Query::with_marker_and_limit` — the chunk fetch
uses exactly the given marker/limit, appended to the accumulated parameters
(nothing is appended for an absent one). -/
def Query.with_marker_and_limit (q : Query) (limit : Option Nat)
    (marker : Option String) : Query :=
  let q1 := match limit with
    | some l => q.push "limit" l
    | none => q
  match marker with
  | some m => q1.push_str "marker" m
  | none => q1

/-- Embeds `protocol::ServerNetwork`: the resolved NIC attachment sent on the wire;
references already verified to plain ids, the fixed IP passed through. -/
inductive ServerNetwork where
  | Network (uuid : String)
  | Port (port : String)
  | FixedIp (fixed_ip : String)
deriving DecidableEq, Repr

/-- Embeds `protocol::ServerCreate`: the request body of a server creation. -/
structure ServerCreate where
  flavorRef : String
  imageRef : Option String
  key_name : Option String
  metadata : List (String × String)
  name : String
  networks : List ServerNetwork
deriving DecidableEq, Repr

/-- Modelled from the spec: the reference (id) of a newly created entity. -/
structure ServerRef where
  id : String
deriving DecidableEq, Repr

/-- One transport call, as recorded in the call trace of an operation. -/
inductive Call where
  | getServerById (id : String)
  | getServer (id : String)
  | getFlavor (id : String)
  | listServers (params : List (String × String))
  | serverActionWithArgs (id action : String) (args : List (String × String))
  | serverSimpleAction (id action : String)
  | createServer (request : ServerCreate)
  | verifyFlavor (fref : String)
  | verifyImage (iref : String)
  | verifyKeyPair (kref : String)
  | verifyNetwork (nref : String)
  | verifyPort (pref : String)
deriving DecidableEq, Repr

/-- Whether a recorded call is the create-server call. -/
def Call.isCreateServer : Call → Bool
  | .createServer _ => true
  | _ => false

/-- Modelled from the spec: the transport collaborator (`Session`), a record
of pure oracles for point fetch-by-id, flavor lookup, chunked list fetch,
create, named-action invocation, and reference verification
(`IntoVerified`). -/
structure Session where
  getServerById : String → Except Err ProtoServer
  getServer : String → Except Err ProtoServer
  getFlavor : String → Except Err Flavor
  listServers : List (String × String) → Except Err (List IdAndName)
  serverActionWithArgs : String → String → List (String × String) → Except Err Unit
  serverSimpleAction : String → String → Except Err Unit
  createServer : ServerCreate → Except Err ServerRef
  verifyFlavor : String → Except Err String
  verifyImage : String → Except Err String
  verifyKeyPair : String → Except Err String
  verifyNetwork : String → Except Err String
  verifyPort : String → Except Err String

/-- Embeds `ServerQuery`: a query to the server list. -/
structure ServerQuery where
  session : Session
  query : Query
  can_paginate : Bool

/-- Embeds `DetailedServerQuery`: a detailed query to the server list, constructed
from a `ServerQuery`. -/
structure DetailedServerQuery where
  inner : ServerQuery

/-- Embeds `Server`: a single server — the shared session handle, the refreshable
snapshot, and the flavor specs resolved at construction. -/
structure Server where
  session : Session
  inner : ProtoServer
  flavor : ServerFlavor

/-- Embeds `ServerSummary`: a summary of a single server. -/
structure ServerSummary where
  session : Session
  inner : IdAndName

/-- Embeds `ServerStatusWaiter`: waiter for the server status to change to
`target`. -/
structure ServerStatusWaiter where
  server : Server
  target : ServerStatus

/-- Embeds `ServerNIC`: a virtual NIC of a new server (attach by network reference,
by existing port reference, or by a caller-supplied fixed IPv4 address). -/
inductive ServerNIC where
  | FromNetwork (network : String)
  | WithPort (port : String)
  | WithFixedIp (fixed_ip : String)
deriving DecidableEq, Repr

/-- Embeds `NewServer`: a request to create a server. -/
structure NewServer where
  session : Session
  flavor : String
  image : Option String
  keypair : Option String
  metadata : List (String × String)
  name : String
  networks : List ServerNIC

/-- Embeds `ServerCreationWaiter`: waiter for a server to be created. -/
structure ServerCreationWaiter where
  server : Server

/-- Embeds `Server::id`: the server's unique id (a transparent property of the
snapshot). -/
def Server.id (s : Server) : String := s.inner.id

/-- Embeds `Server::status`: the server's status (a transparent property of the
snapshot). -/
def Server.status (s : Server) : ServerStatus := s.inner.status

/-- Embeds `Refresh for Server`: re-fetch the snapshot by id and replace it
wholesale; on an error the snapshot is left untouched and the error is
returned. The second component is the updated server, the third the trace of
transport calls issued. -/
def Server.refresh (s : Server) : Except Err Unit × Server × List Call :=
  match s.session.getServerById s.inner.id with
  | .ok fetched => (.ok (), { s with inner := fetched }, [.getServerById s.inner.id])
  | .error e => (.error e, s, [.getServerById s.inner.id])

/-- Embeds `Server::new`: construct a `Server`, resolving the flavor specs through a
single `get_flavor` lookup on the snapshot's flavor id. -/
def Server.new (session : Session) (inner : ProtoServer) :
    Except Err Server × List Call :=
  match session.getFlavor inner.flavorId with
  | .ok flavor =>
      (.ok { session := session
             inner := inner
             flavor := { ephemeral_size := flavor.ephemeral
                         extra_specs := flavor.extra_specs
                         original_name := flavor.name
                         ram_size := flavor.ram
                         root_size := flavor.disk
                         swap_size := flavor.swap
                         vcpu_count := flavor.vcpus } },
       [.getFlavor inner.flavorId])
  | .error e => (.error e, [.getFlavor inner.flavorId])

/-- Embeds `Server::load`: fetch the snapshot by id and construct a `Server` from
it. -/
def Server.load (session : Session) (id : String) :
    Except Err Server × List Call :=
  match session.getServer id with
  | .ok inner =>
      let (r, tr) := Server.new session inner
      (r, .getServer id :: tr)
  | .error e => (.error e, [.getServer id])

/-- Embeds `Server::reboot`: invoke the named action "reboot" with the reboot kind
as the "type" argument; on success return a status waiter targeting
`Active`. -/
def Server.reboot (s : Server) (reboot_type : RebootType) :
    Except Err ServerStatusWaiter × List Call :=
  let args := [("type", reboot_type.display)]
  match s.session.serverActionWithArgs s.inner.id "reboot" args with
  | .ok _ => (.ok { server := s, target := .Active },
              [.serverActionWithArgs s.inner.id "reboot" args])
  | .error e => (.error e, [.serverActionWithArgs s.inner.id "reboot" args])

/-- Embeds `Server::start`: invoke the simple action "os-start"; on success return a
status waiter targeting `Active`. -/
def Server.start (s : Server) : Except Err ServerStatusWaiter × List Call :=
  match s.session.serverSimpleAction s.inner.id "os-start" with
  | .ok _ => (.ok { server := s, target := .Active },
              [.serverSimpleAction s.inner.id "os-start"])
  | .error e => (.error e, [.serverSimpleAction s.inner.id "os-start"])

/-- Embeds `Server::stop`: invoke the simple action "os-stop"; on success return a
status waiter targeting `ShutOff`. -/
def Server.stop (s : Server) : Except Err ServerStatusWaiter × List Call :=
  match s.session.serverSimpleAction s.inner.id "os-stop" with
  | .ok _ => (.ok { server := s, target := .ShutOff },
              [.serverSimpleAction s.inner.id "os-stop"])
  | .error e => (.error e, [.serverSimpleAction s.inner.id "os-stop"])

/-- Embeds `ServerStatusWaiter::timeout_error`: the timeout failure, naming the
server id and the unreached target state. -/
def ServerStatusWaiter.timeout_error (w : ServerStatusWaiter) : Err :=
  { kind := .OperationTimedOut
    message := "Timeout waiting for server " ++ w.server.id
      ++ " to reach state " ++ w.target.display }

/-- Embeds `ServerStatusWaiter::poll`: one refresh of the bound server, then success
when the status equals the target, `OperationFailed` when it is `Error`, and
pending otherwise; refresh errors propagate. -/
def ServerStatusWaiter.poll (w : ServerStatusWaiter) :
    Except Err (Option Unit) × ServerStatusWaiter × List Call :=
  match w.server.refresh with
  | (.ok _, s, tr) =>
      if s.status = w.target then
        (.ok (some ()), { w with server := s }, tr)
      else if s.status = ServerStatus.Error then
        (.error { kind := .OperationFailed
                  message := "Server " ++ s.id ++ " got into ERROR state" },
         { w with server := s }, tr)
      else
        (.ok none, { w with server := s }, tr)
  | (.error e, s, tr) => (.error e, { w with server := s }, tr)

/-- Embeds `ServerCreationWaiter::timeout_error`: the timeout failure, naming the
server id and the target state `ACTIVE`. -/
def ServerCreationWaiter.timeout_error (w : ServerCreationWaiter) : Err :=
  { kind := .OperationTimedOut
    message := "Timeout waiting for server " ++ w.server.id
      ++ " to become ACTIVE" }

/-- Embeds `ServerCreationWaiter::poll`: one refresh of the bound server, then
success carrying the server when the status is `Active`, `OperationFailed`
when it is `Error`, and pending otherwise; refresh errors propagate. -/
def ServerCreationWaiter.poll (w : ServerCreationWaiter) :
    Except Err (Option Server) × ServerCreationWaiter × List Call :=
  match w.server.refresh with
  | (.ok _, s, tr) =>
      if s.status = ServerStatus.Active then
        (.ok (some s), { server := s }, tr)
      else if s.status = ServerStatus.Error then
        (.error { kind := .OperationFailed
                  message := "Server " ++ s.id ++ " got into ERROR state" },
         { server := s }, tr)
      else
        (.ok none, { server := s }, tr)
  | (.error e, s, tr) => (.error e, { server := s }, tr)

/-- Embeds `ServerQuery::new`: a fresh query with an empty filter; pagination is
enabled. -/
def ServerQuery.new (session : Session) : ServerQuery :=
  { session := session, query := Query.new, can_paginate := true }

/-- Embeds `ServerQuery::with_marker`: add a marker to the request; disables
automatic pagination. -/
def ServerQuery.with_marker (q : ServerQuery) (marker : String) : ServerQuery :=
  { q with can_paginate := false, query := q.query.push_str "marker" marker }

/-- Embeds `ServerQuery::with_limit`: add a limit to the request; disables automatic
pagination. -/
def ServerQuery.with_limit (q : ServerQuery) (limit : Nat) : ServerQuery :=
  { q with can_paginate := false, query := q.query.push "limit" limit }

/-- Embeds `ServerQuery::sort_by`: add sorting to the request. -/
def ServerQuery.sort_by (q : ServerQuery) (field direction : String) : ServerQuery :=
  { q with query := (q.query.push_str "sort_key" field).push_str "sort_dir" direction }

/-- Embeds `ServerQuery::with_access_ip_v4`: filter by the IPv4 access address. -/
def ServerQuery.with_access_ip_v4 (q : ServerQuery) (value : String) : ServerQuery :=
  { q with query := q.query.push_str "access_ip_v4" value }

/-- Embeds `ServerQuery::with_access_ip_v6`: filter by the IPv6 access address. -/
def ServerQuery.with_access_ip_v6 (q : ServerQuery) (value : String) : ServerQuery :=
  { q with query := q.query.push_str "access_ipv6" value }

/-- Embeds `ServerQuery::with_availability_zone`: filter by availability zone. -/
def ServerQuery.with_availability_zone (q : ServerQuery) (value : String) : ServerQuery :=
  { q with query := q.query.push_str "availability_zone" value }

/-- Embeds `ServerQuery::with_flavor`: filter by flavor reference. -/
def ServerQuery.with_flavor (q : ServerQuery) (value : String) : ServerQuery :=
  { q with query := q.query.push_str "flavor" value }

/-- Embeds `ServerQuery::with_hostname`: filter by host name. -/
def ServerQuery.with_hostname (q : ServerQuery) (value : String) : ServerQuery :=
  { q with query := q.query.push_str "hostname" value }

/-- Embeds `ServerQuery::with_image`: filter by image reference. -/
def ServerQuery.with_image (q : ServerQuery) (value : String) : ServerQuery :=
  { q with query := q.query.push_str "image" value }

/-- Embeds `ServerQuery::with_ip_v4`: filter by an IPv4 address. -/
def ServerQuery.with_ip_v4 (q : ServerQuery) (value : String) : ServerQuery :=
  { q with query := q.query.push_str "ip" value }

/-- Embeds `ServerQuery::with_ip_v6`: filter by an IPv6 address. -/
def ServerQuery.with_ip_v6 (q : ServerQuery) (value : String) : ServerQuery :=
  { q with query := q.query.push_str "ip6" value }

/-- Embeds `ServerQuery::with_name`: filter by server name. -/
def ServerQuery.with_name (q : ServerQuery) (value : String) : ServerQuery :=
  { q with query := q.query.push_str "name" value }

/-- Embeds `ServerQuery::with_project`: filter by project reference. -/
def ServerQuery.with_project (q : ServerQuery) (value : String) : ServerQuery :=
  { q with query := q.query.push_str "project_id" value }

/-- Embeds `ServerQuery::with_status`: filter by server status. -/
def ServerQuery.with_status (q : ServerQuery) (value : ServerStatus) : ServerQuery :=
  { q with query := q.query.push_str "status" value.display }

/-- Embeds `ServerQuery::with_user`: filter by user reference. -/
def ServerQuery.with_user (q : ServerQuery) (value : String) : ServerQuery :=
  { q with query := q.query.push_str "user_id" value }

/-- Embeds `ServerQuery::detailed`: convert this query into a detailed query. -/
def ServerQuery.detailed (q : ServerQuery) : DetailedServerQuery :=
  { inner := q }

/-- Embeds `From<DetailedServerQuery> for ServerQuery`: unwrap the inner query. -/
def ServerQuery.fromDetailed (value : DetailedServerQuery) : ServerQuery :=
  value.inner

/-- Embeds `From<ServerQuery> for DetailedServerQuery`: wrap through `detailed`. -/
def DetailedServerQuery.fromQuery (value : ServerQuery) : DetailedServerQuery :=
  value.detailed

/-- Embeds `ResourceQuery for ServerQuery`: the default chunk size of a summary
listing. -/
def ServerQuery.DEFAULT_LIMIT : Nat := 100

/-- Embeds `ResourceQuery for DetailedServerQuery`: the default chunk size of a
detailed listing. -/
def DetailedServerQuery.DEFAULT_LIMIT : Nat := 50

/-- Embeds `ResourceQuery for ServerQuery`: `can_paginate` of the query. -/
def ServerQuery.can_paginate_q (q : ServerQuery) : Bool := q.can_paginate

/-- Embeds `ResourceQuery for DetailedServerQuery`: `can_paginate` of the inner
query. -/
def DetailedServerQuery.can_paginate_q (d : DetailedServerQuery) : Bool :=
  d.inner.can_paginate

/-- Embeds `ResourceQuery for ServerQuery`: fetch one chunk of summaries through
`list_servers`, with the marker/limit appended to the accumulated
parameters. -/
def ServerQuery.fetch_chunk (q : ServerQuery) (limit : Option Nat)
    (marker : Option String) : Except Err (List ServerSummary) × List Call :=
  let wire := q.query.with_marker_and_limit limit marker
  match q.session.listServers wire.params with
  | .ok items =>
      (.ok (items.map fun srv => { session := q.session, inner := srv }),
       [.listServers wire.params])
  | .error e => (.error e, [.listServers wire.params])

/-- Modelled from the spec: drawing one element through the resource
iterator. The iterator is purely lazy; its first step fetches one chunk with
the kind's default limit when auto-pagination is enabled and with no limit
otherwise. Since `one()` draws at most two elements, and a first chunk
shorter than the requested default limit (or any chunk when pagination is
disabled, where no continuation fetch follows) ends the sequence, the first
chunk already decides the outcome: zero items fail with `ResourceNotFound`,
exactly one returns it, two or more fail with `TooManyItems`, and a fetch
error propagates. -/
def iterOne (q : ServerQuery) : Except Err ServerSummary × List Call :=
  let (chunk, tr) :=
    q.fetch_chunk (if q.can_paginate then some ServerQuery.DEFAULT_LIMIT else none) none
  match chunk with
  | .error e => (.error e, tr)
  | .ok [] => (.error { kind := .ResourceNotFound
                        message := "Query returned no results" }, tr)
  | .ok [x] => (.ok x, tr)
  | .ok (_ :: _ :: _) => (.error { kind := .TooManyItems
                                   message := "Query returned more than one result" }, tr)

/-- Embeds `ServerQuery::one`: return one and exactly one result; when pagination is
still enabled, first push the probe parameter `limit = 2` onto the query. -/
def ServerQuery.one (q : ServerQuery) : Except Err ServerSummary × List Call :=
  let q' := if q.can_paginate then { q with query := q.query.push "limit" 2 } else q
  iterOne q'

/-- Embeds `convert_networks`: resolve each NIC in order against the session —
network and port references through a verification lookup, the fixed-IP
variant passed through with no lookup; the first failure aborts the rest. -/
def convert_networks (session : Session) : List ServerNIC →
    Except Err (List ServerNetwork) × List Call
  | [] => (.ok [], [])
  | item :: rest =>
    let (head, trHead) : Except Err ServerNetwork × List Call :=
      match item with
      | .FromNetwork n =>
          (match session.verifyNetwork n with
           | .ok uuid => (.ok (.Network uuid), [.verifyNetwork n])
           | .error e => (.error e, [.verifyNetwork n]))
      | .WithPort p =>
          (match session.verifyPort p with
           | .ok port => (.ok (.Port port), [.verifyPort p])
           | .error e => (.error e, [.verifyPort p]))
      | .WithFixedIp ip => (.ok (.FixedIp ip), [])
    match head with
    | .error e => (.error e, trHead)
    | .ok converted =>
        let (tail, trTail) := convert_networks session rest
        match tail with
        | .error e => (.error e, trHead ++ trTail)
        | .ok others => (.ok (converted :: others), trHead ++ trTail)

/-- Embeds `NewServer::create`: resolve the flavor reference, then the optional
image and key-pair references, then the NICs, build the creation request,
issue `create_server`, and load the resulting server into a creation
waiter. Any resolution failure returns that error before `create_server` is
invoked. -/
def NewServer.create (s : NewServer) :
    Except Err ServerCreationWaiter × List Call :=
  match s.session.verifyFlavor s.flavor with
  | .error e => (.error e, [.verifyFlavor s.flavor])
  | .ok flavorRef =>
    let trF := [Call.verifyFlavor s.flavor]
    let (imageRes, trI) : Except Err (Option String) × List Call :=
      match s.image with
      | none => (.ok none, [])
      | some img =>
          (match s.session.verifyImage img with
           | .ok i => (.ok (some i), [.verifyImage img])
           | .error e => (.error e, [.verifyImage img]))
    match imageRes with
    | .error e => (.error e, trF ++ trI)
    | .ok imageRef =>
      let (keyRes, trK) : Except Err (Option String) × List Call :=
        match s.keypair with
        | none => (.ok none, [])
        | some kp =>
            (match s.session.verifyKeyPair kp with
             | .ok k => (.ok (some k), [.verifyKeyPair kp])
             | .error e => (.error e, [.verifyKeyPair kp]))
      match keyRes with
      | .error e => (.error e, trF ++ trI ++ trK)
      | .ok key_name =>
        let (netsRes, trN) := convert_networks s.session s.networks
        match netsRes with
        | .error e => (.error e, trF ++ trI ++ trK ++ trN)
        | .ok networks =>
          let request : ServerCreate :=
            { flavorRef := flavorRef
              imageRef := imageRef
              key_name := key_name
              metadata := s.metadata
              name := s.name
              networks := networks }
          let trPre := trF ++ trI ++ trK ++ trN ++ [Call.createServer request]
          match s.session.createServer request with
          | .error e => (.error e, trPre)
          | .ok server_ref =>
              let (loaded, trL) := Server.load s.session server_ref.id
              match loaded with
              | .error e => (.error e, trPre ++ trL)
              | .ok server => (.ok { server := server }, trPre ++ trL)

/-- Whether the leading characters of the second list spell out the first. -/
def startsWithL : List Char → List Char → Bool
  | [], _ => true
  | _ :: _, [] => false
  | a :: as, b :: bs => a = b && startsWithL as bs

/-- Whether the first list occurs contiguously somewhere in the second. -/
def containsL (needle : List Char) : List Char → Bool
  | [] => needle.isEmpty
  | b :: bs => startsWithL needle (b :: bs) || containsL needle bs

/-- Whether `needle` occurs as a contiguous substring of `hay`. -/
def strContains (hay needle : String) : Bool :=
  containsL needle.data hay.data

/-- One builder step on a `ServerQuery`: every public builder method of the
query, with its argument. -/
inductive QOp where
  | with_marker (marker : String)
  | with_limit (limit : Nat)
  | sort_by (field direction : String)
  | with_access_ip_v4 (value : String)
  | with_access_ip_v6 (value : String)
  | with_availability_zone (value : String)
  | with_flavor (value : String)
  | with_hostname (value : String)
  | with_image (value : String)
  | with_ip_v4 (value : String)
  | with_ip_v6 (value : String)
  | with_name (value : String)
  | with_project (value : String)
  | with_status (value : ServerStatus)
  | with_user (value : String)

/-- Apply one builder step to a query. -/
def QOp.apply (q : ServerQuery) : QOp → ServerQuery
  | .with_marker m => q.with_marker m
  | .with_limit l => q.with_limit l
  | .sort_by f d => q.sort_by f d
  | .with_access_ip_v4 v => q.with_access_ip_v4 v
  | .with_access_ip_v6 v => q.with_access_ip_v6 v
  | .with_availability_zone v => q.with_availability_zone v
  | .with_flavor v => q.with_flavor v
  | .with_hostname v => q.with_hostname v
  | .with_image v => q.with_image v
  | .with_ip_v4 v => q.with_ip_v4 v
  | .with_ip_v6 v => q.with_ip_v6 v
  | .with_name v => q.with_name v
  | .with_project v => q.with_project v
  | .with_status v => q.with_status v
  | .with_user v => q.with_user v

/-! ## Concrete fixtures for evaluating the embedding -/

/-- A concrete flavor used by the evaluation fixtures. -/
def flavorFix : Flavor :=
  { name := "m1.small", vcpus := 2, ram := 2048, disk := 20,
    ephemeral := 4, swap := 1, extra_specs := [] }

/-- A concrete snapshot with the given status. -/
def protoFix (st : ServerStatus) : ProtoServer :=
  { id := "srv-1", name := "one", status := st, flavorId := "fl-1",
    imageId := none, keyPairName := none, powerState := 1, metadata := [] }

/-- A concrete session whose refresh yields a snapshot with the given status
and whose listing yields the given items; every other oracle succeeds. -/
def sessFix (st : ServerStatus) (items : List IdAndName) : Session :=
  { getServerById := fun _ => .ok (protoFix st)
    getServer := fun _ => .ok (protoFix st)
    getFlavor := fun _ => .ok flavorFix
    listServers := fun _ => .ok items
    serverActionWithArgs := fun _ _ _ => .ok ()
    serverSimpleAction := fun _ _ => .ok ()
    createServer := fun _ => .ok { id := "srv-1" }
    verifyFlavor := fun r => .ok r
    verifyImage := fun r => .ok r
    verifyKeyPair := fun r => .ok r
    verifyNetwork := fun r => .ok r
    verifyPort := fun r => .ok r }

/-- A concrete resolved-flavor record matching `flavorFix`. -/
def serverFlavorFix : ServerFlavor :=
  { ephemeral_size := 4, extra_specs := [], original_name := "m1.small",
    ram_size := 2048, root_size := 20, swap_size := 1, vcpu_count := 2 }

/-- A concrete server over `sessFix`, currently in the given status. -/
def serverFix (st : ServerStatus) : Server :=
  { session := sessFix st [], inner := protoFix st, flavor := serverFlavorFix }

/-- A concrete status waiter observing an `Error` refresh while targeting
`Active`. -/
def wFix : ServerStatusWaiter :=
  { server := serverFix .Error, target := .Active }

/-! ## Theorems for the claims -/

/-- C10: converting a `ServerQuery` to a `DetailedServerQuery` (via
`detailed()` or `From`) and back via `From<DetailedServerQuery>` is the
identity — the round trip preserves the session, the accumulated query
parameters and the `can_paginate` flag — and the `DetailedServerQuery` round
trip is likewise the identity. -/
theorem detailed_roundtrip_id :
    (∀ q : ServerQuery,
      ServerQuery.fromDetailed q.detailed = q
      ∧ (ServerQuery.fromDetailed q.detailed).session = q.session
      ∧ (ServerQuery.fromDetailed q.detailed).query = q.query
      ∧ (ServerQuery.fromDetailed q.detailed).can_paginate = q.can_paginate
      ∧ ServerQuery.fromDetailed (DetailedServerQuery.fromQuery q) = q)
    ∧ (∀ d : DetailedServerQuery,
      DetailedServerQuery.fromQuery (ServerQuery.fromDetailed d) = d
      ∧ (ServerQuery.fromDetailed d).detailed = d) := by
  exact ⟨fun q => ⟨rfl, rfl, rfl, rfl, rfl⟩, fun d => ⟨rfl, rfl⟩⟩

/-- C4: `can_paginate` is true immediately after construction, is set to
false by `with_marker` and by `with_limit`, and no builder operation on
`ServerQuery` or conversion through `DetailedServerQuery` ever sets it back
to true: once false it stays false through every subsequent builder call and
through conversion to and from `DetailedServerQuery`. -/
theorem can_paginate_monotone :
    (∀ sess : Session, (ServerQuery.new sess).can_paginate = true)
    ∧ (∀ (q : ServerQuery) (m : String), (q.with_marker m).can_paginate = false)
    ∧ (∀ (q : ServerQuery) (l : Nat), (q.with_limit l).can_paginate = false)
    ∧ (∀ (q : ServerQuery) (op : QOp),
        (QOp.apply q op).can_paginate = true → q.can_paginate = true)
    ∧ (∀ (q : ServerQuery) (ops : List QOp), q.can_paginate = false →
        (ops.foldl QOp.apply q).can_paginate = false)
    ∧ (∀ q : ServerQuery, q.detailed.can_paginate_q = q.can_paginate)
    ∧ (∀ d : DetailedServerQuery,
        (ServerQuery.fromDetailed d).can_paginate = d.can_paginate_q) := by
  have hop : ∀ (q : ServerQuery) (op : QOp),
      (QOp.apply q op).can_paginate = true → q.can_paginate = true := by
    intro q op
    cases op <;>
      simp [QOp.apply, ServerQuery.with_marker, ServerQuery.with_limit,
        ServerQuery.sort_by, ServerQuery.with_access_ip_v4,
        ServerQuery.with_access_ip_v6, ServerQuery.with_availability_zone,
        ServerQuery.with_flavor, ServerQuery.with_hostname,
        ServerQuery.with_image, ServerQuery.with_ip_v4, ServerQuery.with_ip_v6,
        ServerQuery.with_name, ServerQuery.with_project,
        ServerQuery.with_status, ServerQuery.with_user]
  refine ⟨fun _ => rfl, fun _ _ => rfl, fun _ _ => rfl, hop, ?_, fun _ => rfl,
    fun _ => rfl⟩
  intro q ops
  induction ops generalizing q with
  | nil => intro h; simpa using h
  | cons op rest ih =>
      intro h
      refine ih (QOp.apply q op) ?_
      by_contra hmm
      exact absurd (hop q op (by simpa using hmm)) (by simp [h])

/-- Witness for C4 at concrete inputs: a fresh query can paginate, setting a
limit disables pagination, and a later name filter and detail round trip keep
it disabled. -/
theorem can_paginate_monotone_witness :
    ((ServerQuery.new (sessFix .Active [])).can_paginate = true)
    ∧ (((ServerQuery.new (sessFix .Active [])).with_limit 5).can_paginate = false)
    ∧ (([QOp.with_name "x", QOp.sort_by "id" "asc"].foldl QOp.apply
        ((ServerQuery.new (sessFix .Active [])).with_limit 5)).can_paginate = false) := by
  refine ⟨can_paginate_monotone.1 (sessFix .Active []),
    can_paginate_monotone.2.2.1 (ServerQuery.new (sessFix .Active [])) 5,
    can_paginate_monotone.2.2.2.2.1
      ((ServerQuery.new (sessFix .Active [])).with_limit 5)
      [QOp.with_name "x", QOp.sort_by "id" "asc"] rfl⟩

/-- C9: `reboot` invokes the action named "reboot" with the reboot kind as
the "type" argument and on success returns a status waiter targeting
`Active`; `start` invokes "os-start" and targets `Active`; `stop` invokes
"os-stop" and targets `ShutOff`; each waiter is bound to the acted-on
server. -/
theorem action_calls_and_targets (s : Server) (kind : RebootType) :
    ((s.reboot kind).2
      = [Call.serverActionWithArgs s.inner.id "reboot" [("type", kind.display)]]
      ∧ ∀ w, (s.reboot kind).1 = .ok w → w.server = s ∧ w.target = .Active)
    ∧ (s.start.2 = [Call.serverSimpleAction s.inner.id "os-start"]
      ∧ ∀ w, s.start.1 = .ok w → w.server = s ∧ w.target = .Active)
    ∧ (s.stop.2 = [Call.serverSimpleAction s.inner.id "os-stop"]
      ∧ ∀ w, s.stop.1 = .ok w → w.server = s ∧ w.target = .ShutOff) := by
  refine ⟨⟨?_, ?_⟩, ⟨?_, ?_⟩, ⟨?_, ?_⟩⟩
  · cases h : s.session.serverActionWithArgs s.inner.id "reboot" [("type", kind.display)] <;>
      simp [Server.reboot, h]
  · intro w hw
    cases h : s.session.serverActionWithArgs s.inner.id "reboot" [("type", kind.display)] <;>
      simp [Server.reboot, h] at hw
    exact ⟨by simp [← hw], by simp [← hw]⟩
  · cases h : s.session.serverSimpleAction s.inner.id "os-start" <;>
      simp [Server.start, h]
  · intro w hw
    cases h : s.session.serverSimpleAction s.inner.id "os-start" <;>
      simp [Server.start, h] at hw
    exact ⟨by simp [← hw], by simp [← hw]⟩
  · cases h : s.session.serverSimpleAction s.inner.id "os-stop" <;>
      simp [Server.stop, h]
  · intro w hw
    cases h : s.session.serverSimpleAction s.inner.id "os-stop" <;>
      simp [Server.stop, h] at hw
    exact ⟨by simp [← hw], by simp [← hw]⟩

/-- Witness for C9 at a concrete server: the reboot trace is the single
"reboot" action call with the HARD kind, and the returned waiter targets
`Active`. -/
theorem action_calls_and_targets_witness :
    ((serverFix .Active).reboot RebootType.HARD).2
      = [Call.serverActionWithArgs "srv-1" "reboot" [("type", "HARD")]]
    ∧ (⟨serverFix .Active, .Active⟩ : ServerStatusWaiter).server = serverFix .Active
    ∧ (⟨serverFix .Active, .Active⟩ : ServerStatusWaiter).target = .Active := by
  refine ⟨(action_calls_and_targets (serverFix .Active) RebootType.HARD).1.1, ?_⟩
  exact (action_calls_and_targets (serverFix .Active) RebootType.HARD).1.2
    ⟨serverFix .Active, .Active⟩ rfl

/-- C7: `refresh` re-fetches the server by its id and replaces the inner
snapshot wholesale; when the fetch fails the error is returned and the whole
server value — every field — is left unchanged; in every case the cached
flavor and session fields are unchanged. -/
theorem refresh_replaces_snapshot (s : Server) :
    (s.refresh.2.1.flavor = s.flavor ∧ s.refresh.2.1.session = s.session)
    ∧ (∀ p, s.session.getServerById s.inner.id = .ok p →
        s.refresh = (.ok (), { s with inner := p }, [.getServerById s.inner.id]))
    ∧ (∀ e, s.session.getServerById s.inner.id = .error e →
        s.refresh = (.error e, s, [.getServerById s.inner.id])) := by
  refine ⟨?_, ?_, ?_⟩
  · unfold Server.refresh
    cases s.session.getServerById s.inner.id <;> exact ⟨rfl, rfl⟩
  · intro p hp; unfold Server.refresh; rw [hp]
  · intro e he; unfold Server.refresh; rw [he]

/-- Witness for C7 at a concrete server: the successful refresh replaces the
snapshot with the fetched one and keeps flavor and session. -/
theorem refresh_replaces_snapshot_witness :
    (serverFix .ShutOff).refresh
      = (.ok (), { serverFix .ShutOff with inner := protoFix .ShutOff },
         [.getServerById "srv-1"]) := by
  exact (refresh_replaces_snapshot (serverFix .ShutOff)).2.1 (protoFix .ShutOff) rfl

/-- C2: one call to `poll()` on a status waiter or a creation waiter performs
exactly one refresh of the bound server (the trace is the single fetch-by-id
call) and returns success when the refreshed status equals the target
(`Active` for the creation waiter, which carries the refreshed server), an
`OperationFailed` error when the refreshed status is `Error` (and not the
target), pending otherwise; a refresh error is propagated immediately as the
result of `poll()`. -/
theorem poll_single_refresh (w : ServerStatusWaiter) (v : ServerCreationWaiter) :
    (w.poll.2.2 = [Call.getServerById w.server.inner.id]
      ∧ v.poll.2.2 = [Call.getServerById v.server.inner.id])
    ∧ ((∀ e, w.server.session.getServerById w.server.inner.id = .error e →
          w.poll.1 = .error e)
      ∧ ∀ e, v.server.session.getServerById v.server.inner.id = .error e →
          v.poll.1 = .error e)
    ∧ (∀ p, w.server.session.getServerById w.server.inner.id = .ok p →
        (p.status = w.target → w.poll.1 = .ok (some ()))
        ∧ (p.status ≠ w.target → p.status = .Error →
            errKind w.poll.1 = some .OperationFailed)
        ∧ (p.status ≠ w.target → p.status ≠ .Error → w.poll.1 = .ok none))
    ∧ (∀ p, v.server.session.getServerById v.server.inner.id = .ok p →
        (p.status = .Active →
          v.poll.1 = .ok (some { v.server with inner := p }))
        ∧ (p.status ≠ .Active → p.status = .Error →
            errKind v.poll.1 = some .OperationFailed)
        ∧ (p.status ≠ .Active → p.status ≠ .Error → v.poll.1 = .ok none)) := by
  refine ⟨⟨?_, ?_⟩, ⟨?_, ?_⟩, ?_, ?_⟩
  · cases h : w.server.session.getServerById w.server.inner.id with
    | error e => simp [ServerStatusWaiter.poll, Server.refresh, h]
    | ok p =>
        simp only [ServerStatusWaiter.poll, Server.refresh, h]
        split <;> first | rfl | (split <;> rfl)
  · cases h : v.server.session.getServerById v.server.inner.id with
    | error e => simp [ServerCreationWaiter.poll, Server.refresh, h]
    | ok p =>
        simp only [ServerCreationWaiter.poll, Server.refresh, h]
        split <;> first | rfl | (split <;> rfl)
  · intro e he
    simp [ServerStatusWaiter.poll, Server.refresh, he]
  · intro e he
    simp [ServerCreationWaiter.poll, Server.refresh, he]
  · intro p hp
    refine ⟨?_, ?_, ?_⟩
    · intro ht
      simp [ServerStatusWaiter.poll, Server.refresh, hp, Server.status, ht]
    · intro hnt herr
      have hne : ServerStatus.Error ≠ w.target := herr ▸ hnt
      simp [ServerStatusWaiter.poll, Server.refresh, hp, Server.status, herr,
        hne, errKind]
    · intro hnt herr
      simp [ServerStatusWaiter.poll, Server.refresh, hp, Server.status, hnt,
        herr]
  · intro p hp
    refine ⟨?_, ?_, ?_⟩
    · intro ht
      simp [ServerCreationWaiter.poll, Server.refresh, hp, Server.status, ht]
    · intro hnt herr
      simp [ServerCreationWaiter.poll, Server.refresh, hp, Server.status, hnt,
        herr, errKind]
    · intro hnt herr
      simp [ServerCreationWaiter.poll, Server.refresh, hp, Server.status, hnt,
        herr]

/-- Witness for C2 at concrete inputs: a waiter targeting `ShutOff` over a
session whose refresh reports `ShutOff` succeeds with a single fetch call,
and a creation waiter over a refresh reporting a transient status is
pending. -/
theorem poll_single_refresh_witness :
    (ServerStatusWaiter.poll ⟨serverFix .ShutOff, .ShutOff⟩).2.2
      = [Call.getServerById "srv-1"]
    ∧ (ServerStatusWaiter.poll ⟨serverFix .ShutOff, .ShutOff⟩).1 = .ok (some ())
    ∧ (ServerCreationWaiter.poll ⟨serverFix (.Transient "BUILD")⟩).1 = .ok none := by
  refine ⟨(poll_single_refresh ⟨serverFix .ShutOff, .ShutOff⟩
      ⟨serverFix .ShutOff⟩).1.1, ?_, ?_⟩
  · exact ((poll_single_refresh ⟨serverFix .ShutOff, .ShutOff⟩
      ⟨serverFix .ShutOff⟩).2.2.1 (protoFix .ShutOff) rfl).1 rfl
  · exact ((poll_single_refresh ⟨serverFix .ShutOff, .ShutOff⟩
      ⟨serverFix (.Transient "BUILD")⟩).2.2.2 (protoFix (.Transient "BUILD")) rfl).2.2
      (by decide) (by decide)

/-- C5: no waiter reachable through the public operations ever reports
success while the refreshed status is the terminal-failure status `Error`:
the status waiters returned by `reboot`, `start` and `stop` target only
`Active` or `ShutOff` (never `Error`), a status waiter with such a target
that polls `Ok(Some(..))` holds a refreshed server whose status is not
`Error`, and a creation waiter that polls `Ok(Some(..))` returns and holds a
server whose status is not `Error`. -/
theorem no_success_in_error_state :
    (∀ (s : Server) (kind : RebootType) (w : ServerStatusWaiter),
        (s.reboot kind).1 = .ok w → w.target = .Active)
    ∧ (∀ (s : Server) (w : ServerStatusWaiter), s.start.1 = .ok w → w.target = .Active)
    ∧ (∀ (s : Server) (w : ServerStatusWaiter), s.stop.1 = .ok w → w.target = .ShutOff)
    ∧ (∀ (w : ServerStatusWaiter) (u : Unit), w.target ≠ .Error →
        w.poll.1 = .ok (some u) → w.poll.2.1.server.status ≠ .Error)
    ∧ (∀ (v : ServerCreationWaiter) (srv : Server),
        v.poll.1 = .ok (some srv) →
        srv.status ≠ .Error ∧ v.poll.2.1.server.status ≠ .Error) := by
  refine ⟨?_, ?_, ?_, ?_, ?_⟩
  · intro s kind w hw
    cases h : s.session.serverActionWithArgs s.inner.id "reboot" [("type", kind.display)] <;>
      simp [Server.reboot, h] at hw
    simp [← hw]
  · intro s w hw
    cases h : s.session.serverSimpleAction s.inner.id "os-start" <;>
      simp [Server.start, h] at hw
    simp [← hw]
  · intro s w hw
    cases h : s.session.serverSimpleAction s.inner.id "os-stop" <;>
      simp [Server.stop, h] at hw
    simp [← hw]
  · intro w u htarget hpoll
    cases h : w.server.session.getServerById w.server.inner.id with
    | error e => simp [ServerStatusWaiter.poll, Server.refresh, h] at hpoll
    | ok p =>
        by_cases ht : p.status = w.target
        · have hv : w.poll.2.1.server.status = w.target := by
            simp [ServerStatusWaiter.poll, Server.refresh, h, Server.status, ht]
          rw [hv]
          exact htarget
        · by_cases herr : p.status = ServerStatus.Error
          · have hne : ServerStatus.Error ≠ w.target := herr ▸ ht
            simp [ServerStatusWaiter.poll, Server.refresh, h, Server.status,
              herr, hne] at hpoll
          · simp [ServerStatusWaiter.poll, Server.refresh, h, Server.status,
              ht, herr] at hpoll
  · intro v srv hpoll
    cases h : v.server.session.getServerById v.server.inner.id with
    | error e => simp [ServerCreationWaiter.poll, Server.refresh, h] at hpoll
    | ok p =>
        by_cases ht : p.status = ServerStatus.Active
        · have hv : v.poll =
              (.ok (some { v.server with inner := p }),
               { server := { v.server with inner := p } },
               [Call.getServerById v.server.inner.id]) := by
            simp [ServerCreationWaiter.poll, Server.refresh, h, Server.status, ht]
          rw [hv] at hpoll
          simp only [Except.ok.injEq, Option.some.injEq] at hpoll
          constructor
          · rw [← hpoll]
            simp [Server.status, ht]
          · rw [hv]
            simp [Server.status, ht]
        · by_cases herr : p.status = ServerStatus.Error
          · simp [ServerCreationWaiter.poll, Server.refresh, h, Server.status,
              ht, herr] at hpoll
          · simp [ServerCreationWaiter.poll, Server.refresh, h, Server.status,
              ht, herr] at hpoll

/-- Witness for C5 at concrete inputs: a stop-produced waiter targets
`ShutOff`, and a successful poll of it over a `ShutOff` refresh leaves a
status other than `Error`. -/
theorem no_success_in_error_state_witness :
    (⟨serverFix .ShutOff, .ShutOff⟩ : ServerStatusWaiter).target = .ShutOff
    ∧ (ServerStatusWaiter.poll
        ⟨serverFix .ShutOff, .ShutOff⟩).2.1.server.status ≠ .Error := by
  refine ⟨no_success_in_error_state.2.2.1 (serverFix .ShutOff)
      ⟨serverFix .ShutOff, .ShutOff⟩ rfl, ?_⟩
  exact no_success_in_error_state.2.2.2.1 ⟨serverFix .ShutOff, .ShutOff⟩ ()
    (by decide) rfl

/-- C8: a `Server` constructed by `Server::new` carries the specs of the
single flavor lookup performed at construction (`vcpu_count`, `ram_size`,
`root_size`, `ephemeral_size` and `swap_size` equal the looked-up flavor's
`vcpus`, `ram`, `disk`, `ephemeral` and `swap`; the construction trace is
that one lookup), and when a creation waiter bound to it resolves
successfully the returned server still carries exactly those specs — its
poll re-fetches only the snapshot, never the flavor. -/
theorem creation_carries_flavor_specs (sess : Session) (p : ProtoServer)
    (f : Flavor) (hf : sess.getFlavor p.flavorId = .ok f) :
    (Server.new sess p).2 = [Call.getFlavor p.flavorId]
    ∧ ∀ srv, (Server.new sess p).1 = .ok srv →
        (srv.flavor.vcpu_count = f.vcpus ∧ srv.flavor.ram_size = f.ram
          ∧ srv.flavor.root_size = f.disk
          ∧ srv.flavor.ephemeral_size = f.ephemeral
          ∧ srv.flavor.swap_size = f.swap)
        ∧ (ServerCreationWaiter.poll { server := srv }).2.2
            = [Call.getServerById srv.inner.id]
        ∧ ∀ out, (ServerCreationWaiter.poll { server := srv }).1 = .ok (some out) →
            out.flavor = srv.flavor := by
  constructor
  · simp [Server.new, hf]
  · intro srv hsrv
    have hflavor : srv.flavor =
        { ephemeral_size := f.ephemeral, extra_specs := f.extra_specs,
          original_name := f.name, ram_size := f.ram, root_size := f.disk,
          swap_size := f.swap, vcpu_count := f.vcpus } := by
      simp [Server.new, hf] at hsrv
      rw [← hsrv]
    refine ⟨⟨by rw [hflavor], by rw [hflavor], by rw [hflavor],
      by rw [hflavor], by rw [hflavor]⟩, ?_, ?_⟩
    · cases h : srv.session.getServerById srv.inner.id with
      | error e => simp [ServerCreationWaiter.poll, Server.refresh, h]
      | ok q =>
          simp only [ServerCreationWaiter.poll, Server.refresh, h]
          split <;> first | rfl | (split <;> rfl)
    · intro out hout
      cases h : srv.session.getServerById srv.inner.id with
      | error e => simp [ServerCreationWaiter.poll, Server.refresh, h] at hout
      | ok q =>
          by_cases ht : q.status = ServerStatus.Active
          · have hv : (ServerCreationWaiter.poll { server := srv }).1 =
                .ok (some { srv with inner := q }) := by
              simp [ServerCreationWaiter.poll, Server.refresh, h, Server.status, ht]
            rw [hv] at hout
            simp only [Except.ok.injEq, Option.some.injEq] at hout
            rw [← hout]
          · by_cases herr : q.status = ServerStatus.Error
            · simp [ServerCreationWaiter.poll, Server.refresh, h, Server.status,
                ht, herr] at hout
            · simp [ServerCreationWaiter.poll, Server.refresh, h, Server.status,
                ht, herr] at hout

/-- Witness for C8 at concrete inputs: the fixture server constructed from
the fixture flavor lookup has the fixture's vCPU count, and a successful
creation poll preserves its flavor record. -/
theorem creation_carries_flavor_specs_witness :
    (Server.new (sessFix .Active []) (protoFix .Active)).2
      = [Call.getFlavor "fl-1"]
    ∧ (serverFix .Active).flavor.vcpu_count = flavorFix.vcpus
    ∧ ∀ out, (ServerCreationWaiter.poll { server := serverFix .Active }).1
        = .ok (some out) → out.flavor = (serverFix .Active).flavor := by
  refine ⟨(creation_carries_flavor_specs (sessFix .Active []) (protoFix .Active)
      flavorFix rfl).1, ?_⟩
  have h := (creation_carries_flavor_specs (sessFix .Active []) (protoFix .Active)
      flavorFix rfl).2 (serverFix .Active) rfl
  exact ⟨h.1.1, h.2.2⟩

/-! ## Substring lemmas for the message claims -/

/-- A list spells out the head of itself followed by anything. -/
theorem startsWithL_self_append (n b : List Char) :
    startsWithL n (n ++ b) = true := by
  induction n with
  | nil => rfl
  | cons a as ih => simp [startsWithL, ih]

/-- Containment holds when the needle spells out the start of the hay. -/
theorem containsL_head (n hay : List Char) (h : startsWithL n hay = true) :
    containsL n hay = true := by
  cases hay with
  | nil =>
      cases n with
      | nil => rfl
      | cons a as => simp [startsWithL] at h
  | cons c cs => simp [containsL, h]

/-- Containment is preserved by consing onto the hay. -/
theorem containsL_cons (n : List Char) (c : Char) (hay : List Char)
    (h : containsL n hay = true) : containsL n (c :: hay) = true := by
  simp [containsL, h]

/-- A needle is contained in any list that carries it contiguously. -/
theorem containsL_append (a n b : List Char) :
    containsL n (a ++ (n ++ b)) = true := by
  induction a with
  | nil => exact containsL_head n (n ++ b) (startsWithL_self_append n b)
  | cons c cs ih => exact containsL_cons n c (cs ++ (n ++ b)) ih

/-- String append acts as list append on the character data. -/
theorem data_append (a b : String) : (a ++ b).data = a.data ++ b.data := by
  cases a; cases b; rfl

/-- A string whose data decomposes around the needle contains the needle. -/
theorem strContains_parts (hay a n b : String)
    (h : hay.data = a.data ++ (n.data ++ b.data)) :
    strContains hay n = true := by
  unfold strContains
  rw [h]
  exact containsL_append a.data n.data b.data

/-- C3 counterexample: at the concrete waiter `wFix` (server "srv-1",
target `Active`, refresh reporting `Error`) the poll failure is
`OperationFailed` with message "Server srv-1 got into ERROR state", which
does not contain the rendering "ACTIVE" of the target state that was never
reached — so the `OperationFailed` error does not carry the target state. -/
theorem operation_failed_message_lacks_target :
    (ServerStatusWaiter.poll wFix).1
      = .error ⟨.OperationFailed, "Server srv-1 got into ERROR state"⟩
    ∧ wFix.server.id = "srv-1"
    ∧ wFix.target = .Active
    ∧ ServerStatus.display wFix.target = "ACTIVE"
    ∧ strContains "Server srv-1 got into ERROR state" "srv-1" = true
    ∧ strContains "Server srv-1 got into ERROR state" "ACTIVE" = false := by
  refine ⟨rfl, rfl, rfl, rfl, by decide, by decide⟩

/-- C3 as amended: the `OperationTimedOut` errors of `timeout_error()` carry
a message containing both the server's id and the (rendering of the) target
state that was never reached, and the `OperationFailed` error returned when
the server enters the `Error` state carries a message containing the
(refreshed) server's id — but not, in general, the target state. -/
theorem waiter_failure_messages (w : ServerStatusWaiter)
    (v : ServerCreationWaiter) :
    (w.timeout_error.kind = .OperationTimedOut
      ∧ strContains w.timeout_error.message w.server.id = true
      ∧ strContains w.timeout_error.message w.target.display = true)
    ∧ (v.timeout_error.kind = .OperationTimedOut
      ∧ strContains v.timeout_error.message v.server.id = true
      ∧ strContains v.timeout_error.message (ServerStatus.display .Active) = true)
    ∧ (∀ p, w.server.session.getServerById w.server.inner.id = .ok p →
        p.status ≠ w.target → p.status = .Error →
        w.poll.1 = .error ⟨.OperationFailed,
          "Server " ++ p.id ++ " got into ERROR state"⟩
        ∧ strContains ("Server " ++ p.id ++ " got into ERROR state") p.id = true)
    ∧ (∀ p, v.server.session.getServerById v.server.inner.id = .ok p →
        p.status ≠ .Active → p.status = .Error →
        v.poll.1 = .error ⟨.OperationFailed,
          "Server " ++ p.id ++ " got into ERROR state"⟩
        ∧ strContains ("Server " ++ p.id ++ " got into ERROR state") p.id = true) := by
  refine ⟨⟨rfl, ?_, ?_⟩, ⟨rfl, ?_, ?_⟩, ?_, ?_⟩
  · refine strContains_parts _ "Timeout waiting for server " _
      (" to reach state " ++ w.target.display) ?_
    simp [ServerStatusWaiter.timeout_error, data_append, List.append_assoc]
  · refine strContains_parts _
      ("Timeout waiting for server " ++ w.server.id ++ " to reach state ")
      _ "" ?_
    simp [ServerStatusWaiter.timeout_error, data_append, List.append_assoc]
  · refine strContains_parts _ "Timeout waiting for server " _
      " to become ACTIVE" ?_
    simp [ServerCreationWaiter.timeout_error, data_append, List.append_assoc]
  · refine strContains_parts _
      ("Timeout waiting for server " ++ v.server.id ++ " to become ")
      "ACTIVE" "" ?_
    simp [ServerCreationWaiter.timeout_error, data_append, List.append_assoc]
  · intro p hp hnt herr
    have hne : ServerStatus.Error ≠ w.target := herr ▸ hnt
    refine ⟨?_, ?_⟩
    · simp [ServerStatusWaiter.poll, Server.refresh, hp, Server.status, herr,
        hne, Server.id]
    · exact strContains_parts _ "Server " _ " got into ERROR state"
        (by simp [data_append, List.append_assoc])
  · intro p hp hnt herr
    refine ⟨?_, ?_⟩
    · simp [ServerCreationWaiter.poll, Server.refresh, hp, Server.status, herr,
        hnt, Server.id]
    · exact strContains_parts _ "Server " _ " got into ERROR state"
        (by simp [data_append, List.append_assoc])

/-- Witness for the amended C3 at concrete inputs: a status waiter bound to
"srv-1" targeting `ShutOff` has a timeout message containing "srv-1" and
"SHUTOFF", and the concrete `Error`-state poll returns the
id-carrying `OperationFailed` message. -/
theorem waiter_failure_messages_witness :
    strContains (ServerStatusWaiter.timeout_error
      ⟨serverFix .Active, .ShutOff⟩).message "srv-1" = true
    ∧ strContains (ServerStatusWaiter.timeout_error
      ⟨serverFix .Active, .ShutOff⟩).message "SHUTOFF" = true
    ∧ (ServerStatusWaiter.poll wFix).1
      = .error ⟨.OperationFailed,
                "Server " ++ "srv-1" ++ " got into ERROR state"⟩ := by
  refine ⟨(waiter_failure_messages ⟨serverFix .Active, .ShutOff⟩
      ⟨serverFix .Active⟩).1.2.1,
    (waiter_failure_messages ⟨serverFix .Active, .ShutOff⟩
      ⟨serverFix .Active⟩).1.2.2, ?_⟩
  exact ((waiter_failure_messages wFix ⟨serverFix .Active⟩).2.2.1
    (protoFix .Error) rfl (by decide) rfl).1

/-- The wire parameters of the single fetch issued by `one()`: when
pagination is still enabled they are the caller's accumulated parameters
followed by the probe `limit = 2` (and the auto-pagination chunk limit the
iterator appends for the fetch); when the caller disabled pagination they
are exactly the caller's parameters, untouched. -/
def oneWire (q : ServerQuery) : List (String × String) :=
  if q.can_paginate then q.query.params ++ [("limit", "2"), ("limit", "100")]
  else q.query.params

/-- Evaluation of the modelled single-element drain: it issues exactly one
fetch and classifies the chunk by cardinality. -/
theorem iterOne_eq (q : ServerQuery) :
    iterOne q =
      (match q.session.listServers ((q.query.with_marker_and_limit
          (if q.can_paginate then some ServerQuery.DEFAULT_LIMIT else none)
          none).params) with
        | .error e => .error e
        | .ok [] => .error ⟨.ResourceNotFound, "Query returned no results"⟩
        | .ok [x] => .ok ⟨q.session, x⟩
        | .ok (_ :: _ :: _) =>
            .error ⟨.TooManyItems, "Query returned more than one result"⟩,
       [Call.listServers ((q.query.with_marker_and_limit
          (if q.can_paginate then some ServerQuery.DEFAULT_LIMIT else none)
          none).params)]) := by
  unfold iterOne ServerQuery.fetch_chunk
  cases h : q.session.listServers ((q.query.with_marker_and_limit
      (if q.can_paginate then some ServerQuery.DEFAULT_LIMIT else none)
      none).params) with
  | error e => simp [h]
  | ok items =>
      cases items with
      | nil => simp [h]
      | cons x xs =>
          cases xs with
          | nil => simp [h]
          | cons y ys => simp [h]

/-- C1: `one()` pushes the probe parameter `limit = 2` onto the query if and
only if `can_paginate` is still true (a caller-set marker or limit is never
overridden: with pagination disabled the single fetch carries exactly the
caller's parameters); it issues one fetch, and fails with `ResourceNotFound`
when the query yields zero items, returns the single item when it yields
exactly one, fails with `TooManyItems` when it yields two or more, and
propagates a fetch error. -/
theorem one_probe_and_cardinality (q : ServerQuery) :
    q.one.2 = [Call.listServers (oneWire q)]
    ∧ (q.can_paginate = true →
        oneWire q = q.query.params ++ [("limit", "2"), ("limit", "100")])
    ∧ (q.can_paginate = false → oneWire q = q.query.params)
    ∧ (∀ e, q.session.listServers (oneWire q) = .error e → q.one.1 = .error e)
    ∧ (q.session.listServers (oneWire q) = .ok [] →
        errKind q.one.1 = some .ResourceNotFound)
    ∧ (∀ x, q.session.listServers (oneWire q) = .ok [x] →
        q.one.1 = .ok ⟨q.session, x⟩)
    ∧ (∀ x y rest, q.session.listServers (oneWire q) = .ok (x :: y :: rest) →
        errKind q.one.1 = some .TooManyItems) := by
  have hwire : ∀ hcp : Bool, q.can_paginate = hcp →
      ((if q.can_paginate then { q with query := q.query.push "limit" 2 }
        else q).query.with_marker_and_limit
        (if (if q.can_paginate then { q with query := q.query.push "limit" 2 }
          else q).can_paginate then some ServerQuery.DEFAULT_LIMIT else none)
        none).params = oneWire q := by
    intro hcp h
    cases hcp with
    | true =>
        simp [h, Query.with_marker_and_limit, Query.push, oneWire,
          ServerQuery.DEFAULT_LIMIT]
        exact ⟨rfl, rfl⟩
    | false => simp [h, Query.with_marker_and_limit, oneWire]
  have hone : q.one =
      (match q.session.listServers (oneWire q) with
        | .error e => .error e
        | .ok [] => .error ⟨.ResourceNotFound, "Query returned no results"⟩
        | .ok [x] => .ok ⟨q.session, x⟩
        | .ok (_ :: _ :: _) =>
            .error ⟨.TooManyItems, "Query returned more than one result"⟩,
       [Call.listServers (oneWire q)]) := by
    unfold ServerQuery.one
    rw [iterOne_eq]
    rw [hwire q.can_paginate rfl]
    cases hcp : q.can_paginate <;> simp [hcp]
  refine ⟨?_, ?_, ?_, ?_, ?_, ?_, ?_⟩
  · rw [hone]
  · intro h; simp [oneWire, h]
  · intro h; simp [oneWire, h]
  · intro e he; rw [hone]; simp [he]
  · intro he; rw [hone]; simp [he, errKind]
  · intro x he; rw [hone]; simp [he]
  · intro x y rest he; rw [hone]; simp [he, errKind]

/-- Witness for C1 at concrete inputs: over a fresh (paginating) query whose
listing yields two items the probe `limit = 2` is on the wire and the result
is `TooManyItems`; over a caller-limited query yielding one item the wire
carries exactly the caller's parameters and the item is returned. -/
theorem one_probe_and_cardinality_witness :
    (ServerQuery.new (sessFix .Active [⟨"a", "na"⟩, ⟨"b", "nb"⟩])).one.2
      = [Call.listServers [("limit", "2"), ("limit", "100")]]
    ∧ errKind (ServerQuery.new (sessFix .Active [⟨"a", "na"⟩, ⟨"b", "nb"⟩])).one.1
      = some .TooManyItems
    ∧ ((ServerQuery.new (sessFix .Active [⟨"a", "na"⟩])).with_limit 1).one.2
      = [Call.listServers [("limit", "1")]]
    ∧ ((ServerQuery.new (sessFix .Active [⟨"a", "na"⟩])).with_limit 1).one.1
      = .ok ⟨sessFix .Active [⟨"a", "na"⟩], ⟨"a", "na"⟩⟩ := by
  refine ⟨(one_probe_and_cardinality
      (ServerQuery.new (sessFix .Active [⟨"a", "na"⟩, ⟨"b", "nb"⟩]))).1, ?_, ?_, ?_⟩
  · exact (one_probe_and_cardinality
      (ServerQuery.new (sessFix .Active [⟨"a", "na"⟩, ⟨"b", "nb"⟩]))).2.2.2.2.2.2
      ⟨"a", "na"⟩ ⟨"b", "nb"⟩ [] rfl
  · exact (one_probe_and_cardinality
      ((ServerQuery.new (sessFix .Active [⟨"a", "na"⟩])).with_limit 1)).1
  · exact (one_probe_and_cardinality
      ((ServerQuery.new (sessFix .Active [⟨"a", "na"⟩])).with_limit 1)).2.2.2.2.2.1
      ⟨"a", "na"⟩ rfl

/-- The NIC conversion issues only verification lookups: its trace never
contains the create-server call. -/
theorem convert_networks_no_create (sess : Session) (nics : List ServerNIC) :
    (convert_networks sess nics).2.any Call.isCreateServer = false := by
  induction nics with
  | nil => rfl
  | cons nic rest ih =>
      cases hcr : convert_networks sess rest with
      | mk r tr =>
          rw [hcr] at ih
          cases nic with
          | FromNetwork n =>
              cases h : sess.verifyNetwork n with
              | ok u =>
                  cases r <;> simp [convert_networks, h, hcr, Call.isCreateServer, ih]
              | error e => simp [convert_networks, h, Call.isCreateServer]
          | WithPort p =>
              cases h : sess.verifyPort p with
              | ok u =>
                  cases r <;> simp [convert_networks, h, hcr, Call.isCreateServer, ih]
              | error e => simp [convert_networks, h, Call.isCreateServer]
          | WithFixedIp ip =>
              cases r <;> simp [convert_networks, hcr, Call.isCreateServer, ih]

/-- C6: `NewServer::create` resolves every reference — the flavor, the
optional image, the optional key pair, and each network/port NIC reference —
against the transport before the create call is issued: the create-server
call appears in the trace only when every resolution succeeded; the failure
of any resolution is returned as the result and the create-server call is
never invoked; and the fixed-IPv4 NIC variant is passed through without any
lookup. -/
theorem create_resolves_before_create :
    (∀ s : NewServer,
      (s.create.2.any Call.isCreateServer = true →
        (∃ f, s.session.verifyFlavor s.flavor = .ok f)
        ∧ (∀ img, s.image = some img → ∃ i, s.session.verifyImage img = .ok i)
        ∧ (∀ kp, s.keypair = some kp → ∃ k, s.session.verifyKeyPair kp = .ok k)
        ∧ (∃ nets, (convert_networks s.session s.networks).1 = .ok nets))
      ∧ (∀ e, s.session.verifyFlavor s.flavor = .error e →
          s.create = (.error e, [.verifyFlavor s.flavor]))
      ∧ (∀ f img e, s.session.verifyFlavor s.flavor = .ok f →
          s.image = some img → s.session.verifyImage img = .error e →
          s.create.1 = .error e ∧ s.create.2.any Call.isCreateServer = false)
      ∧ (∀ f kp e, s.session.verifyFlavor s.flavor = .ok f →
          (s.image = none
            ∨ ∃ img i, s.image = some img ∧ s.session.verifyImage img = .ok i) →
          s.keypair = some kp → s.session.verifyKeyPair kp = .error e →
          s.create.1 = .error e ∧ s.create.2.any Call.isCreateServer = false)
      ∧ (∀ f e, s.session.verifyFlavor s.flavor = .ok f →
          (s.image = none
            ∨ ∃ img i, s.image = some img ∧ s.session.verifyImage img = .ok i) →
          (s.keypair = none
            ∨ ∃ kp k, s.keypair = some kp ∧ s.session.verifyKeyPair kp = .ok k) →
          (convert_networks s.session s.networks).1 = .error e →
          s.create.1 = .error e ∧ s.create.2.any Call.isCreateServer = false))
    ∧ (∀ (sess : Session) (ips : List String),
        convert_networks sess (ips.map ServerNIC.WithFixedIp)
          = (.ok (ips.map ServerNetwork.FixedIp), [])) := by
  constructor
  · intro s
    refine ⟨?_, ?_, ?_, ?_, ?_⟩
    · intro hmem
      cases hf : s.session.verifyFlavor s.flavor with
      | error e => simp [NewServer.create, hf, Call.isCreateServer] at hmem
      | ok f =>
          cases himg : s.image with
          | some img =>
              cases hi : s.session.verifyImage img with
              | error e =>
                  simp [NewServer.create, hf, himg, hi, Call.isCreateServer] at hmem
              | ok i =>
                  cases hkp : s.keypair with
                  | some kp =>
                      cases hk : s.session.verifyKeyPair kp with
                      | error e =>
                          simp [NewServer.create, hf, himg, hi, hkp, hk,
                            Call.isCreateServer] at hmem
                      | ok k =>
                          cases hcn : convert_networks s.session s.networks with
                          | mk r tr =>
                              cases r with
                              | error e =>
                                  have hnc := convert_networks_no_create s.session
                                    s.networks
                                  rw [hcn] at hnc
                                  simp [NewServer.create, hf, himg, hi, hkp, hk,
                                    hcn, Call.isCreateServer, hnc] at hmem
                              | ok nets =>
                                  refine ⟨⟨f, rfl⟩, ?_, ?_, ⟨nets, rfl⟩⟩
                                  · intro img2 himg2
                                    injection himg2 with hinj
                                    exact ⟨i, hinj ▸ hi⟩
                                  · intro kp2 hkp2
                                    injection hkp2 with hinj
                                    exact ⟨k, hinj ▸ hk⟩
                  | none =>
                      cases hcn : convert_networks s.session s.networks with
                      | mk r tr =>
                          cases r with
                          | error e =>
                              have hnc := convert_networks_no_create s.session
                                s.networks
                              rw [hcn] at hnc
                              simp [NewServer.create, hf, himg, hi, hkp,
                                hcn, Call.isCreateServer, hnc] at hmem
                          | ok nets =>
                              refine ⟨⟨f, rfl⟩, ?_, ?_, ⟨nets, rfl⟩⟩
                              · intro img2 himg2
                                injection himg2 with hinj
                                exact ⟨i, hinj ▸ hi⟩
                              · intro kp2 hkp2
                                exact Option.noConfusion hkp2
          | none =>
              cases hkp : s.keypair with
              | some kp =>
                  cases hk : s.session.verifyKeyPair kp with
                  | error e =>
                      simp [NewServer.create, hf, himg, hkp, hk,
                        Call.isCreateServer] at hmem
                  | ok k =>
                      cases hcn : convert_networks s.session s.networks with
                      | mk r tr =>
                          cases r with
                          | error e =>
                              have hnc := convert_networks_no_create s.session
                                s.networks
                              rw [hcn] at hnc
                              simp [NewServer.create, hf, himg, hkp, hk,
                                hcn, Call.isCreateServer, hnc] at hmem
                          | ok nets =>
                              refine ⟨⟨f, rfl⟩, ?_, ?_, ⟨nets, rfl⟩⟩
                              · intro img2 himg2
                                exact Option.noConfusion himg2
                              · intro kp2 hkp2
                                injection hkp2 with hinj
                                exact ⟨k, hinj ▸ hk⟩
              | none =>
                  cases hcn : convert_networks s.session s.networks with
                  | mk r tr =>
                      cases r with
                      | error e =>
                          have hnc := convert_networks_no_create s.session
                            s.networks
                          rw [hcn] at hnc
                          simp [NewServer.create, hf, himg, hkp,
                            hcn, Call.isCreateServer, hnc] at hmem
                      | ok nets =>
                          refine ⟨⟨f, rfl⟩, ?_, ?_, ⟨nets, rfl⟩⟩
                          · intro img2 himg2
                            exact Option.noConfusion himg2
                          · intro kp2 hkp2
                            exact Option.noConfusion hkp2
    · intro e he
      simp [NewServer.create, he]
    · intro f img e hf himg hi
      simp [NewServer.create, hf, himg, hi, Call.isCreateServer]
    · intro f kp e hf himgok hkp hk
      rcases himgok with himg | ⟨img, i, himg, hi⟩
      · simp [NewServer.create, hf, himg, hkp, hk, Call.isCreateServer]
      · simp [NewServer.create, hf, himg, hi, hkp, hk, Call.isCreateServer]
    · intro f e hf himgok hkpok hcn1
      cases hcn : convert_networks s.session s.networks with
      | mk r tr =>
          rw [hcn] at hcn1
          have hnc := convert_networks_no_create s.session s.networks
          rw [hcn] at hnc
          simp only at hcn1 hnc
          subst hcn1
          rcases himgok with himg | ⟨img, i, himg, hi⟩ <;>
            rcases hkpok with hkp | ⟨kp, k, hkp, hk⟩ <;>
              (refine ⟨?_, ?_⟩ <;>
                simp [NewServer.create, Call.isCreateServer, List.any_append, *])
  · intro sess ips
    induction ips with
    | nil => rfl
    | cons ip rest ih => simp [convert_networks, ih]

/-- Witness for C6 at concrete inputs: with a session whose flavor
verification fails, `create` returns that error having issued only the
flavor lookup (in particular no create-server call); and the fixed-IP NIC
list converts with an empty trace. -/
theorem create_resolves_before_create_witness :
    ({ session :=
        { sessFix .Active [] with
          verifyFlavor := fun _ => .error ⟨.ResourceNotFound, "no flavor"⟩ }
       flavor := "fl-1", image := none, keypair := none, metadata := []
       name := "n", networks := [ServerNIC.WithFixedIp "10.0.0.2"] } : NewServer).create
      = (.error ⟨.ResourceNotFound, "no flavor"⟩, [.verifyFlavor "fl-1"])
    ∧ convert_networks (sessFix .Active [])
        (["10.0.0.2", "10.0.0.3"].map ServerNIC.WithFixedIp)
      = (.ok (["10.0.0.2", "10.0.0.3"].map ServerNetwork.FixedIp), []) := by
  exact ⟨(create_resolves_before_create.1 _).2.1 _ rfl,
    create_resolves_before_create.2 (sessFix .Active []) ["10.0.0.2", "10.0.0.3"]⟩

end Servers
